import Mathlib

/-!
Shallow embedding of the verification-request pipeline of the repository
(`src/route.ts`, `src/database.ts`, `src/abstract-api.ts`).

Conventions:
* Stateful database code is modelled by explicit state passing: the SQLite
  table `verification_requests` is a `List Row`, and each database function
  takes and returns the store.
* Timestamps are epoch milliseconds as `Int` (`Date.now()`).
* JavaScript `undefined`/`null` on a field is `Option.none`.
* `Math.random().toString(36).substring(2, 8)` is modelled by passing the
  base-36 fractional digits of the random number as a `List (Fin 36)`.
* The external HTTP fetch performed by the Abstract API client is modelled
  by an oracle `Nat → FetchOutcome β` giving the outcome of each attempt
  (1-indexed); network waits (`setTimeout`) are recorded as a list of delays.
-/

namespace Verify

/-- Risk tier, column `risk_level` / response field `riskLevel`
(`'low' | 'medium' | 'high'`). -/
inductive RiskLevel where
  | low
  | medium
  | high
deriving DecidableEq, Repr

/-- Verification kind, column `type` in `verification_requests`
(`'email' | 'phone'`). -/
inductive Kind where
  | email
  | phone
deriving DecidableEq, Repr

/-- Record status (`'pending' | 'verified' | 'failed'`). -/
inductive Status where
  | pending
  | verified
  | failed
deriving DecidableEq, Repr

/-- Phone line type from `AbstractPhoneValidationResult.type`
(`src/abstract-api.ts` line 126). -/
inductive PhoneType where
  | Landline
  | Mobile
  | Satellite
  | Premium
  | Paging
  | Special
  | Toll_Free
  | Unknown
deriving DecidableEq, Repr

/-- `AbstractPhoneValidationResult` (`src/abstract-api.ts` lines 113-128),
the declared (well-typed) shape of a phone validation payload.
`phoneType` models the JSON field `type`; `countryDialPrefixStr` models
`country.prefix`; the nested `format` and `country` objects are flattened. -/
structure PhonePayload where
  phone : String
  valid : Bool
  formatInternational : String
  formatLocal : String
  countryCode : String
  countryName : String
  countryDialPrefixStr : String
  location : String
  phoneType : PhoneType
  carrier : String
deriving DecidableEq, Repr

/-! ## Scoring Engine (`src/route.ts` lines 53-68)

The route initialises `qualityScore = 0.8` and `riskLevel = 'low'` and then
runs an `if`/`else if` chain that overwrites them; branches that do not
assign `riskLevel` keep the default. Scores are exact decimal rationals. -/

/-- Scoring of a phone validation payload, translated from the mutable
`qualityScore`/`riskLevel` assignment chain in `src/route.ts` lines 53-68. -/
def phoneScore (v : PhonePayload) : Rat × RiskLevel :=
  let qualityScore : Rat := 0.8
  let riskLevel : RiskLevel := .low
  if !v.valid then ((0.1 : Rat), RiskLevel.high)
  else if v.phoneType = .Mobile then ((0.9 : Rat), riskLevel)
  else if v.phoneType = .Landline then ((0.7 : Rat), riskLevel)
  else if v.phoneType = .Toll_Free || v.phoneType = .Unknown then ((0.5 : Rat), RiskLevel.medium)
  else (qualityScore, riskLevel)

/-- The scoring rule table as the spec words it (§4.3 Phone): first match
wins, conditions in priority order. Written from the claim text, to be
compared with `phoneScore` (which is translated from the code). -/
def phoneScoreRuleTable (v : PhonePayload) : Rat × RiskLevel :=
  if v.valid = false then ((0.1 : Rat), RiskLevel.high)
  else if v.phoneType = .Mobile then ((0.9 : Rat), RiskLevel.low)
  else if v.phoneType = .Landline then ((0.7 : Rat), RiskLevel.low)
  else if v.phoneType = .Toll_Free ∨ v.phoneType = .Unknown then ((0.5 : Rat), RiskLevel.medium)
  else ((0.8 : Rat), RiskLevel.low)

/-! ## Phone input validation (`src/route.ts` lines 17-24)

The regex is `^[\+]?[\d\s\-\(\)]{10,}$`. Since `+` is not in the character
class, the optional group must consume a leading `+` when present. `\d` is
the ASCII digits; `\s` is the JavaScript whitespace class. -/

/-- JavaScript regex `\d`: ASCII `0`-`9`. -/
def isJsDigit (c : Char) : Bool :=
  48 ≤ c.toNat && c.toNat ≤ 57

/-- JavaScript regex `\s`: tab, LF, VT, FF, CR, space, NBSP, and the
Unicode white-space code points (including U+FEFF). -/
def isJsWhitespace (c : Char) : Bool :=
  (9 ≤ c.toNat && c.toNat ≤ 13) || c.toNat = 32 || c.toNat = 0x00a0 ||
  c.toNat = 0x1680 || (0x2000 ≤ c.toNat && c.toNat ≤ 0x200a) ||
  c.toNat = 0x2028 || c.toNat = 0x2029 || c.toNat = 0x202f ||
  c.toNat = 0x205f || c.toNat = 0x3000 || c.toNat = 0xfeff

/-- One character of the class `[\d\s\-\(\)]`. -/
def phoneCharOk (c : Char) : Bool :=
  isJsDigit c || isJsWhitespace c || c = '-' || c = '(' || c = ')'

/-- `phoneRegex.test(phone)` for `^[\+]?[\d\s\-\(\)]{10,}$`
(`src/route.ts` line 18), over the character sequence of the value: an
optional leading `+` (which the class cannot match, so the optional group
must consume it when present), then at least ten class characters. -/
def matchesPhoneRegex (s : String) : Bool :=
  let rest : List Char :=
    match s.toList with
    | '+' :: tl => tl
    | cs => cs
  decide (10 ≤ rest.length) && rest.all phoneCharOk

/-! ## Record Store (`src/database.ts`)

One row of the SQLite table `verification_requests` (lines 17-32). The
store itself is a `List Row` in insertion order; the column `type` is
modelled by the field `kind`. Nullable columns are `Option`s. -/

/-- A row of `verification_requests` (`src/database.ts` lines 17-32,
interface `VerificationRequest` lines 52-67). `validation_data` and
`reputation_data` hold the `JSON.stringify` text. -/
structure Row where
  id : Nat
  kind : Kind
  value : String
  status : Status
  verification_code : Option String
  created_at : Int
  updated_at : Int
  ip_address : Option String
  user_agent : Option String
  validation_data : Option String
  reputation_data : Option String
  api_response_time : Option Int
  quality_score : Option Rat
  risk_level : Option RiskLevel
deriving DecidableEq, Repr

/-- `AUTOINCREMENT` id for the next inserted row: one more than the largest
id present (ids are never reused; rows are never deleted). -/
def nextId (store : List Row) : Nat :=
  (store.map Row.id).foldr max 0 + 1

/-- One base-36 digit as the character `Math.random().toString(36)` produces
after `.toUpperCase()`: `0`-`9` then `A`-`Z`. -/
def base36UpperChar (d : Fin 36) : Char :=
  if d.val < 10 then Char.ofNat (48 + d.val) else Char.ofNat (65 + (d.val - 10))

/-- `Math.random().toString(36).substring(2, 8).toUpperCase()`
(`src/database.ts` line 73): the first six base-36 fractional digits of the
random number, uppercased. The digit list may be shorter than six (the
decimal expansion of the double is finite and drops trailing zeros), in
which case the code is shorter than six characters. -/
def generateVerificationCode (rnd : List (Fin 36)) : String :=
  String.mk ((rnd.take 6).map base36UpperChar)

/-- Argument record of `createVerificationRequest`
(`Omit<VerificationRequest, 'id' | 'created_at' | 'updated_at'>`).
`verification_code` is present in the TypeScript type but ignored by the
insert. `validation_data`/`reputation_data` carry the already-stringified
JSON (the code stringifies truthy values and stores `null` otherwise). -/
structure InsertRequest where
  kind : Kind
  value : String
  status : Option Status
  verification_code : Option String := none
  ip_address : Option String := none
  user_agent : Option String := none
  validation_data : Option String := none
  reputation_data : Option String := none
  api_response_time : Option Int := none
  quality_score : Option Rat := none
  risk_level : Option RiskLevel := none
deriving DecidableEq, Repr

/-- JavaScript `v || null` applied to an optional number: `undefined` and
the falsy value `0` both become `null` (`src/database.ts` lines 87-88). -/
def intOrNull (o : Option Int) : Option Int :=
  match o with
  | some v => if v = 0 then none else some v
  | none => none

/-- JavaScript `v || null` applied to an optional real score: `undefined`
and `0` become `null` (`src/database.ts` line 88). -/
def ratOrNull (o : Option Rat) : Option Rat :=
  match o with
  | some v => if v = 0 then none else some v
  | none => none

/-- `createVerificationRequest` (`src/database.ts` lines 69-101): generates
the verification code, inserts the row, and returns the created row together
with the new store. `request.status || 'pending'` is the `getD .pending`;
`risk_level` is a non-empty string whenever present, so its `|| null` only
turns `undefined` into `null`. `now` is the insertion timestamp
(`CURRENT_TIMESTAMP`). -/
def createVerificationRequest (store : List Row) (request : InsertRequest)
    (rnd : List (Fin 36)) (now : Int) : Row × List Row :=
  let verificationCode := generateVerificationCode rnd
  let row : Row :=
    { id := nextId store
      kind := request.kind
      value := request.value
      status := request.status.getD .pending
      verification_code := some verificationCode
      created_at := now
      updated_at := now
      ip_address := request.ip_address
      user_agent := request.user_agent
      validation_data := request.validation_data
      reputation_data := request.reputation_data
      api_response_time := intOrNull request.api_response_time
      quality_score := ratOrNull request.quality_score
      risk_level := request.risk_level }
  (row, store ++ [row])

/-- Insert a row into a list kept in descending `created_at` order. -/
def insertByCreatedAtDesc (r : Row) : List Row → List Row
  | [] => [r]
  | x :: xs =>
    if x.created_at < r.created_at then r :: x :: xs
    else x :: insertByCreatedAtDesc r xs

/-- Sort rows by `created_at` descending (insertion sort; SQLite leaves
the relative order of equal keys unspecified). -/
def sortByCreatedAtDesc : List Row → List Row
  | [] => []
  | x :: xs => insertByCreatedAtDesc x (sortByCreatedAtDesc xs)

/-- `SELECT * FROM verification_requests WHERE type = ? AND value = ?
ORDER BY created_at DESC` (`src/database.ts` lines 114-130). -/
def getVerificationRequestsByValue (store : List Row) (kind : Kind)
    (value : String) : List Row :=
  sortByCreatedAtDesc (store.filter (fun r => r.kind = kind && r.value = value))

/-- The `updates` argument of `updateVerificationRequest` (`Partial`
fields; only these six columns are updatable). `validation_data` and
`reputation_data` carry the stringified JSON. -/
structure UpdateFields where
  status : Option Status := none
  validation_data : Option String := none
  reputation_data : Option String := none
  api_response_time : Option Int := none
  quality_score : Option Rat := none
  risk_level : Option RiskLevel := none
deriving DecidableEq, Repr

/-- Whether at least one updatable field was supplied (`fields.length > 0`
in `src/database.ts` line 177). -/
def hasAnyField (u : UpdateFields) : Bool :=
  u.status.isSome || u.validation_data.isSome || u.reputation_data.isSome ||
  u.api_response_time.isSome || u.quality_score.isSome || u.risk_level.isSome

/-- Effect of the generated `UPDATE ... SET` on one matching row: each
supplied column is overwritten, `updated_at` is set to `CURRENT_TIMESTAMP`
(`now`), everything else is untouched. -/
def applyUpdate (u : UpdateFields) (now : Int) (r : Row) : Row :=
  { r with
    status := u.status.getD r.status
    validation_data := match u.validation_data with
      | some s => some s
      | none => r.validation_data
    reputation_data := match u.reputation_data with
      | some s => some s
      | none => r.reputation_data
    api_response_time := match u.api_response_time with
      | some v => some v
      | none => r.api_response_time
    quality_score := match u.quality_score with
      | some v => some v
      | none => r.quality_score
    risk_level := match u.risk_level with
      | some v => some v
      | none => r.risk_level
    updated_at := now }

/-- `updateVerificationRequest` (`src/database.ts` lines 144-186): when at
least one field is supplied, run `UPDATE verification_requests SET ...,
updated_at = CURRENT_TIMESTAMP WHERE id = ?`; a `WHERE` that matches no row
changes nothing and raises no error. With no supplied fields no SQL runs at
all. -/
def updateVerificationRequest (store : List Row) (id : Nat)
    (updates : UpdateFields) (now : Int) : List Row :=
  if hasAnyField updates then
    store.map (fun r => if r.id = id then applyUpdate updates now r else r)
  else
    store

/-! ## External Validation Client (`src/abstract-api.ts`)

Each `fetch` attempt either yields an HTTP response (status code plus the
JSON-parsed body) or fails at the network level (`AbortError` on the
10-second timeout, `TypeError` on connection failure) — modelled by
`FetchOutcome`. The oracle `resp : Nat → FetchOutcome β` gives the outcome
of attempt `k` (attempts are numbered from 1). A run records how many
attempts were made, the backoff waits performed, and the final result. -/

/-- Outcome of one `fetch` attempt: a response whose body parsed as JSON,
or a network-level failure (timeout abort / connection error). -/
inductive FetchOutcome (β : Type) where
  | response (status : Nat) (body : β)
  | netFailure
deriving DecidableEq, Repr

/-- `response.ok`: status in the 2xx range. -/
def responseOk (status : Nat) : Bool :=
  200 ≤ status && status ≤ 299

/-- `status >= 400 && status < 500 && status !== 429`
(`src/abstract-api.ts` line 176): a terminal client error for the email
client. -/
def isTerminalClientErrorStatus (status : Nat) : Bool :=
  400 ≤ status && status < 500 && status ≠ 429

/-- `Math.min(1000 * Math.pow(2, attempt - 1), 5000)`: the wait performed
after a failed attempt before the next one. -/
def backoffDelay (attempt : Nat) : Nat :=
  min (1000 * 2 ^ (attempt - 1)) 5000

/-- `maxRetries = 3`: total attempt budget of every client call. -/
def maxRetries : Nat := 3

/-- Terminal failure of a client call, keyed by its last observed cause. -/
inductive ClientError where
  | httpError (status : Nat)
  | networkError
  | malformedResponse
  | exhausted
deriving DecidableEq, Repr

/-- Observable behaviour of one client call: number of `fetch` attempts
made, the backoff waits in order, and the result. -/
structure ClientRun (β : Type) where
  calls : Nat
  delays : List Nat
  result : Except ClientError β
deriving Repr

/-- The JSON-parsed body of a phone validation response. `validatePhone`
never inspects the body, so only presence of the required top-level fields
of `AbstractPhoneValidationResult` (`phone`, `valid`, `format`, `country`,
`location`, `type`, `carrier`) is tracked. -/
structure PhoneJson where
  hasPhone : Bool
  hasValid : Bool
  hasFormat : Bool
  hasCountry : Bool
  hasLocation : Bool
  hasType : Bool
  hasCarrier : Bool
deriving DecidableEq, Repr

/-- All required top-level fields of a phone validation payload present. -/
def PhoneJson.hasRequiredTopLevelFields (j : PhoneJson) : Bool :=
  j.hasPhone && j.hasValid && j.hasFormat && j.hasCountry && j.hasLocation &&
  j.hasType && j.hasCarrier

/-- The JSON-parsed body of an email validation response, as far as
`validateEmail` inspects it: the truthiness of `data.email_address` and
`data.email_deliverability` (`src/abstract-api.ts` line 194). -/
structure EmailJson where
  email_address_truthy : Bool
  email_deliverability_truthy : Bool
deriving DecidableEq, Repr

/-- `!(!data.email_address || !data.email_deliverability)`: the structure
check passed by a well-formed email response. -/
def EmailJson.structureOk (j : EmailJson) : Bool :=
  j.email_address_truthy && j.email_deliverability_truthy

/-- The retry loop of `validatePhone` (`src/abstract-api.ts` lines
302-360), as a function of the remaining loop iterations (`fuel`) and the
current attempt number. An `ok` response is returned as-is (`return data`,
line 336 — no structure check). A non-ok response of ANY status and a
network failure are both retried with a backoff wait until
`attempt === maxRetries`, where the error is thrown. Exiting the loop with
no result is the final `throw` at line 359. -/
def validatePhoneGo {β : Type} (resp : Nat → FetchOutcome β) :
    Nat → Nat → List Nat → ClientRun β
  | 0, attempt, delays => ⟨attempt - 1, delays, .error .exhausted⟩
  | fuel + 1, attempt, delays =>
    match resp attempt with
    | .response status body =>
      if responseOk status then ⟨attempt, delays, .ok body⟩
      else if attempt = maxRetries then ⟨attempt, delays, .error (.httpError status)⟩
      else validatePhoneGo resp fuel (attempt + 1) (delays ++ [backoffDelay attempt])
    | .netFailure =>
      if attempt = maxRetries then ⟨attempt, delays, .error .networkError⟩
      else validatePhoneGo resp fuel (attempt + 1) (delays ++ [backoffDelay attempt])

/-- `abstractAPI.validatePhone`: run the loop from attempt 1 with the full
budget of `maxRetries` iterations. -/
def validatePhone {β : Type} (resp : Nat → FetchOutcome β) : ClientRun β :=
  validatePhoneGo resp maxRetries 1 []

/-- The retry loop of `validateEmail` (`src/abstract-api.ts` lines
143-240), as a function of remaining iterations and attempt number.
Differences from the phone client, straight from the code:
* a non-ok status in `[400, 500)` other than 429 is thrown (line 177) and
  the catch re-throws it immediately when `attempt === 1` (line 221);
  on a later attempt it falls to the bottom of the catch, waits, and
  retries, and at `attempt === maxRetries` it is terminal (line 226);
* an ok response missing `email_address` or `email_deliverability` is
  terminal at `attempt === maxRetries` and otherwise hits `continue`
  WITHOUT a backoff wait (line 199);
* 5xx / 429 and network failures retry with the backoff wait and are
  terminal at `attempt === maxRetries`. -/
def validateEmailGo (resp : Nat → FetchOutcome EmailJson) :
    Nat → Nat → List Nat → ClientRun EmailJson
  | 0, attempt, delays => ⟨attempt - 1, delays, .error .exhausted⟩
  | fuel + 1, attempt, delays =>
    match resp attempt with
    | .response status body =>
      if responseOk status then
        if body.structureOk then ⟨attempt, delays, .ok body⟩
        else if attempt = maxRetries then ⟨attempt, delays, .error .malformedResponse⟩
        else validateEmailGo resp fuel (attempt + 1) delays
      else if isTerminalClientErrorStatus status then
        if attempt = 1 then ⟨attempt, delays, .error (.httpError status)⟩
        else if attempt = maxRetries then ⟨attempt, delays, .error (.httpError status)⟩
        else validateEmailGo resp fuel (attempt + 1) (delays ++ [backoffDelay attempt])
      else if attempt = maxRetries then ⟨attempt, delays, .error (.httpError status)⟩
      else validateEmailGo resp fuel (attempt + 1) (delays ++ [backoffDelay attempt])
    | .netFailure =>
      if attempt = maxRetries then ⟨attempt, delays, .error .networkError⟩
      else validateEmailGo resp fuel (attempt + 1) (delays ++ [backoffDelay attempt])

/-- `abstractAPI.validateEmail`: run the loop from attempt 1 with the full
budget of `maxRetries` iterations. -/
def validateEmail (resp : Nat → FetchOutcome EmailJson) : ClientRun EmailJson :=
  validateEmailGo resp maxRetries 1 []

/-! ## Phone HTTP entry point (`src/route.ts` `POST`)

The handler is modelled as a pure function of: the destructured `phone`
value of the request body, the current store, the request start time, the
handler finish time, the resolution of `abstractAPI.validatePhone` (an
oracle, since the network is external), the random digits used for the
verification code, and the two provenance headers. The outcome records the
HTTP status, whether the external client was invoked, and the new store. -/

/-- The destructured `phone` of the parsed request body: absent
(`undefined`), present but not a string, or a string. -/
inductive BodyPhone where
  | absent
  | notAString
  | str (s : String)
deriving DecidableEq, Repr

/-- Resolution of the `await abstractAPI.validatePhone(phone)` call as the
route sees it: a well-typed payload, or a thrown error (caught at
`src/route.ts` line 45). -/
inductive ExternalResult where
  | ok (p : PhonePayload)
  | apiError
deriving DecidableEq, Repr

/-- Outcome of one run of the phone `POST` handler. -/
structure RouteOutcome where
  status : Nat
  externalCalled : Bool
  store : List Row
deriving DecidableEq, Repr

/-- `JSON.stringify` of a phone validation payload stored in
`validation_data`; content is opaque to every claim, so the `Repr` text is
used as the serialisation. -/
def jsonStringifyPhone (p : PhonePayload) : String :=
  toString (repr p)

/-- The argument object of the route's `createVerificationRequest` call
(`src/route.ts` lines 71-81): final status derived from `valid`,
provenance headers defaulted to `"unknown"`, the raw payload stringified,
`api_response_time: 0` (to be written later), and the computed score and
risk level. -/
def phoneInsertRequest (phone : String) (validationData : PhonePayload)
    (xForwardedFor userAgent : Option String) : InsertRequest :=
  { kind := .phone
    value := phone
    status := some (if validationData.valid then .verified else .failed)
    ip_address := some (xForwardedFor.getD "unknown")
    user_agent := some (userAgent.getD "unknown")
    validation_data := some (jsonStringifyPhone validationData)
    api_response_time := some 0
    quality_score := some (phoneScore validationData).1
    risk_level := some (phoneScore validationData).2 }

/-- The phone `POST` handler (`src/route.ts` lines 5-115).
Steps in code order: body shape check (400), regex check (400), rate-limit
lookup over `(kind, value)` within the last 5 minutes (429, nothing else
happens), external call (on throw: 502, nothing written), scoring, record
insertion with the final status and `api_response_time: 0`, then the update
writing the measured response time. `startTime` is when the handler began
(insert timestamp), `endTime` when the response time is measured
(`src/route.ts` line 88). -/
def phonePOST (body : BodyPhone) (store : List Row) (startTime endTime : Int)
    (ext : ExternalResult) (rnd : List (Fin 36))
    (xForwardedFor userAgent : Option String) : RouteOutcome :=
  match body with
  | .absent => ⟨400, false, store⟩
  | .notAString => ⟨400, false, store⟩
  | .str phone =>
    if phone = "" then ⟨400, false, store⟩
    else if !matchesPhoneRegex phone then ⟨400, false, store⟩
    else
      let recentAttempts := getVerificationRequestsByValue store .phone phone
      let recentAttempt := recentAttempts.find?
        (fun attempt => decide (startTime - 5 * 60 * 1000 < attempt.created_at))
      if recentAttempt.isSome then ⟨429, false, store⟩
      else
        match ext with
        | .apiError => ⟨502, true, store⟩
        | .ok validationData =>
          let inserted := createVerificationRequest store
            (phoneInsertRequest phone validationData xForwardedFor userAgent)
            rnd startTime
          let responseTime := endTime - startTime
          let store2 := updateVerificationRequest inserted.2 inserted.1.id
            { api_response_time := some responseTime } endTime
          ⟨200, true, store2⟩

/-! ## Sample values used by concrete runs -/

/-- A phone response body with every required top-level field present. -/
def wellFormedPhoneBody : PhoneJson :=
  ⟨true, true, true, true, true, true, true⟩

/-- A phone response body that parses as JSON but is missing every required
top-level field. -/
def malformedPhoneBody : PhoneJson :=
  ⟨false, false, false, false, false, false, false⟩

/-- An email response body whose `email_address` and `email_deliverability`
are present (truthy). -/
def wellFormedEmailBody : EmailJson :=
  ⟨true, true⟩

/-- An email response body missing both required top-level fields. -/
def malformedEmailBody : EmailJson :=
  ⟨false, false⟩

/-- A valid mobile-phone validation payload. -/
def samplePayload : PhonePayload :=
  { phone := "+1234567890"
    valid := true
    formatInternational := "+1234567890"
    formatLocal := "234567890"
    countryCode := "US"
    countryName := "United States"
    countryDialPrefixStr := "+1"
    location := "California"
    phoneType := .Mobile
    carrier := "Carrier" }

/-- A stored verification row for `(phone, "+1234567890")` created at
time 100. -/
def sampleRow : Row :=
  { id := 1
    kind := .phone
    value := "+1234567890"
    status := .verified
    verification_code := some "ABC123"
    created_at := 100
    updated_at := 100
    ip_address := none
    user_agent := none
    validation_data := none
    reputation_data := none
    api_response_time := none
    quality_score := none
    risk_level := none }

/-! ## Helper lemmas -/

/-- Membership is preserved by ordered insertion. -/
theorem mem_insertByCreatedAtDesc {a r : Row} {l : List Row} :
    a ∈ insertByCreatedAtDesc r l ↔ a = r ∨ a ∈ l := by
  induction l with
  | nil => simp [insertByCreatedAtDesc]
  | cons x xs ih =>
    by_cases h : x.created_at < r.created_at
    · simp [insertByCreatedAtDesc, h]
    · simp only [insertByCreatedAtDesc, if_neg h, List.mem_cons, ih]
      tauto

/-- Sorting by `created_at` descending does not change membership. -/
theorem mem_sortByCreatedAtDesc {a : Row} {l : List Row} :
    a ∈ sortByCreatedAtDesc l ↔ a ∈ l := by
  induction l with
  | nil => simp [sortByCreatedAtDesc]
  | cons x xs ih => simp [sortByCreatedAtDesc, mem_insertByCreatedAtDesc, ih]

/-- A row of the rate-limit query result is a stored row with the queried
kind and value. -/
theorem mem_getVerificationRequestsByValue {r : Row} {store : List Row}
    {kind : Kind} {value : String} :
    r ∈ getVerificationRequestsByValue store kind value ↔
      r ∈ store ∧ r.kind = kind ∧ r.value = value := by
  unfold getVerificationRequestsByValue
  rw [mem_sortByCreatedAtDesc, List.mem_filter]
  simp

/-- Every stored row's id is bounded by the running maximum. -/
theorem id_le_foldr_max (store : List Row) :
    ∀ r ∈ store, r.id ≤ (store.map Row.id).foldr max 0 := by
  induction store with
  | nil => simp
  | cons x xs ih =>
    intro r hr
    rcases List.mem_cons.mp hr with h | h
    · subst h; exact le_max_left _ _
    · exact le_trans (ih r h) (le_max_right _ _)

/-- A freshly inserted row gets an id strictly larger than every stored
row's id. -/
theorem id_lt_nextId (store : List Row) : ∀ r ∈ store, r.id < nextId store :=
  fun r hr => Nat.lt_succ_of_le (id_le_foldr_max store r hr)

/-- Mapping a function that fixes every element is the identity. -/
theorem map_eq_self_of_fixes {l : List Row} {f : Row → Row}
    (h : ∀ x ∈ l, f x = x) : l.map f = l := by
  induction l with
  | nil => rfl
  | cons x xs ih =>
    simp only [List.map_cons]
    rw [h x (by simp), ih (fun y hy => h y (by simp [hy]))]

/-- Updating the id of a row just appended to a store of strictly smaller
ids rewrites only that row. -/
theorem updateVerificationRequest_append_fresh (store : List Row) (row : Row)
    (u : UpdateFields) (now : Int) (hu : hasAnyField u = true)
    (h : ∀ r ∈ store, r.id ≠ row.id) :
    updateVerificationRequest (store ++ [row]) row.id u now
      = store ++ [applyUpdate u now row] := by
  unfold updateVerificationRequest
  rw [hu]
  simp only [if_true, List.map_append, List.map_cons, List.map_nil, if_pos rfl]
  rw [map_eq_self_of_fixes (fun r hr => if_neg (h r hr))]

/-- Attempt-count bound for the phone client loop. -/
theorem validatePhoneGo_calls_le {β : Type} (resp : Nat → FetchOutcome β) :
    ∀ fuel attempt delays,
      (validatePhoneGo resp fuel attempt delays).calls ≤ attempt - 1 + fuel := by
  intro fuel
  induction fuel with
  | zero => intro attempt delays; simp [validatePhoneGo]
  | succ n ih =>
    intro attempt delays
    unfold validatePhoneGo
    cases resp attempt with
    | response status body =>
      dsimp only
      split
      · dsimp only; omega
      · split
        · dsimp only; omega
        · exact le_trans (ih _ _) (by omega)
    | netFailure =>
      dsimp only
      split
      · dsimp only; omega
      · exact le_trans (ih _ _) (by omega)

/-- Attempt-count bound for the email client loop. -/
theorem validateEmailGo_calls_le (resp : Nat → FetchOutcome EmailJson) :
    ∀ fuel attempt delays,
      (validateEmailGo resp fuel attempt delays).calls ≤ attempt - 1 + fuel := by
  intro fuel
  induction fuel with
  | zero => intro attempt delays; simp [validateEmailGo]
  | succ n ih =>
    intro attempt delays
    unfold validateEmailGo
    cases resp attempt with
    | response status body =>
      dsimp only
      split
      · split
        · dsimp only; omega
        · split
          · dsimp only; omega
          · exact le_trans (ih _ _) (by omega)
      · split
        · split
          · dsimp only; omega
          · split
            · dsimp only; omega
            · exact le_trans (ih _ _) (by omega)
        · split
          · dsimp only; omega
          · exact le_trans (ih _ _) (by omega)
    | netFailure =>
      dsimp only
      split
      · dsimp only; omega
      · exact le_trans (ih _ _) (by omega)

/-- A successful email client run only ever returns a body that passed the
structure check. -/
theorem validateEmailGo_ok_structureOk (resp : Nat → FetchOutcome EmailJson) :
    ∀ fuel attempt delays b,
      (validateEmailGo resp fuel attempt delays).result = .ok b →
      b.structureOk = true := by
  intro fuel
  induction fuel with
  | zero => intro attempt delays b h; simp [validateEmailGo] at h
  | succ n ih =>
    intro attempt delays b h
    unfold validateEmailGo at h
    cases hr : resp attempt with
    | response status body =>
      rw [hr] at h
      simp only at h
      by_cases hok : responseOk status = true
      · rw [if_pos hok] at h
        by_cases hst : body.structureOk = true
        · rw [if_pos hst] at h
          simp only at h
          obtain rfl : body = b := by
            have := h
            simpa using this
          exact hst
        · rw [if_neg hst] at h
          by_cases hmax : attempt = maxRetries
          · rw [if_pos hmax] at h; simp at h
          · rw [if_neg hmax] at h; exact ih _ _ _ h
      · rw [if_neg hok] at h
        by_cases hterm : isTerminalClientErrorStatus status = true
        · rw [if_pos hterm] at h
          by_cases h1 : attempt = 1
          · rw [if_pos h1] at h; simp at h
          · rw [if_neg h1] at h
            by_cases hmax : attempt = maxRetries
            · rw [if_pos hmax] at h; simp at h
            · rw [if_neg hmax] at h; exact ih _ _ _ h
        · rw [if_neg hterm] at h
          by_cases hmax : attempt = maxRetries
          · rw [if_pos hmax] at h; simp at h
          · rw [if_neg hmax] at h; exact ih _ _ _ h
    | netFailure =>
      rw [hr] at h
      simp only at h
      by_cases hmax : attempt = maxRetries
      · rw [if_pos hmax] at h; simp at h
      · rw [if_neg hmax] at h; exact ih _ _ _ h

/-- A terminal client-error status is never in the 2xx range. -/
theorem responseOk_eq_false_of_terminal {status : Nat}
    (h : isTerminalClientErrorStatus status = true) :
    responseOk status = false := by
  unfold isTerminalClientErrorStatus at h
  unfold responseOk
  simp only [Bool.and_eq_true, decide_eq_true_eq] at h ⊢
  simp only [Bool.and_eq_false_iff, decide_eq_false_iff_not]
  omega

/-! ## Claim theorems -/

/-- C4: For every phone validation payload, the scoring function returns,
by first matching rule: not valid → qualityScore 0.1 and riskTier high;
type Mobile → 0.9 and low; type Landline → 0.7 and low; type Toll_Free or
Unknown → 0.5 and medium; any other valid type → 0.8 and low. The code's
default-then-override chain agrees with the first-match rule table on
every payload. -/
theorem phoneScore_matches_rule_table (v : PhonePayload) :
    phoneScore v = phoneScoreRuleTable v := by
  obtain ⟨p, valid, fi, fl, cc, cn, cp, loc, ptype, car⟩ := v
  cases valid <;> cases ptype <;> rfl

/-- C7: For every phone verification request whose value does not match
the pattern optional leading `+` followed by at least ten characters drawn
from digits, whitespace, hyphens, and parentheses, the request terminates
with HTTP 400, the store is unchanged (no record created), and the
external client is never invoked. -/
theorem invalid_phone_rejected_400 (s : String) (store : List Row)
    (startTime endTime : Int) (ext : ExternalResult) (rnd : List (Fin 36))
    (ip ua : Option String) (h : matchesPhoneRegex s = false) :
    phonePOST (.str s) store startTime endTime ext rnd ip ua
      = ⟨400, false, store⟩ := by
  unfold phonePOST
  dsimp only
  by_cases hs : s = ""
  · rw [if_pos hs]
  · rw [if_neg hs, h]; rfl

/-- Witness for C7 at the concrete value `"abc"`. -/
theorem invalid_phone_rejected_400_witness :
    matchesPhoneRegex "abc" = false ∧
    phonePOST (.str "abc") [] 0 0 .apiError [] none none = ⟨400, false, []⟩ :=
  ⟨by decide,
    invalid_phone_rejected_400 "abc" [] 0 0 .apiError [] none none (by decide)⟩

/-- C3: For every phone verification request on a value for which a prior
attempt exists in the store within the last 5 minutes, the request
terminates with HTTP 429, the store is unchanged (no new record), and the
external client is never invoked. -/
theorem rate_limited_429 (s : String) (store : List Row)
    (startTime endTime : Int) (ext : ExternalResult) (rnd : List (Fin 36))
    (ip ua : Option String) (hregex : matchesPhoneRegex s = true)
    (hrecent : ∃ r ∈ store, r.kind = .phone ∧ r.value = s ∧
      startTime - 5 * 60 * 1000 < r.created_at) :
    phonePOST (.str s) store startTime endTime ext rnd ip ua
      = ⟨429, false, store⟩ := by
  have hs : ¬ s = "" := by
    intro h
    rw [h] at hregex
    exact absurd hregex (by decide)
  have hfind : (List.find?
      (fun attempt => decide (startTime - 5 * 60 * 1000 < attempt.created_at))
      (getVerificationRequestsByValue store .phone s)).isSome = true := by
    rw [List.find?_isSome]
    obtain ⟨r, hr, hk, hv, ht⟩ := hrecent
    exact ⟨r, mem_getVerificationRequestsByValue.mpr ⟨hr, hk, hv⟩, by simpa using ht⟩
  unfold phonePOST
  dsimp only
  rw [if_neg hs, hregex]
  simp only [Bool.not_true, Bool.false_eq_true, if_false, hfind, if_true]

/-- Witness for C3: a second request for `"+1234567890"` 200 seconds after
a stored attempt is rejected with 429 and changes nothing. -/
theorem rate_limited_429_witness :
    (sampleRow ∈ [sampleRow] ∧ sampleRow.kind = .phone ∧
      sampleRow.value = "+1234567890" ∧
      (200000 : Int) - 5 * 60 * 1000 < sampleRow.created_at) ∧
    phonePOST (.str "+1234567890") [sampleRow] 200000 200005 .apiError [] none none
      = ⟨429, false, [sampleRow]⟩ :=
  ⟨⟨by simp, by decide, by decide, by decide⟩,
    rate_limited_429 "+1234567890" [sampleRow] 200000 200005 .apiError [] none none
      (by decide) ⟨sampleRow, by simp, by decide, by decide, by decide⟩⟩

/-- C1 counterexample: an accepted request (valid value, empty store so not
rate-limited) whose external call fails terminally returns 502 with the
store still empty — no record was created before the external call, so no
`pending` record remains as an orphan, contradicting the claim. -/
theorem pending_orphan_counterexample :
    (phonePOST (.str "+1234567890") [] 0 5 .apiError [] none none).status = 502
    ∧ (phonePOST (.str "+1234567890") [] 0 5 .apiError [] none none).store = []
    ∧ ¬ ∃ r ∈ (phonePOST (.str "+1234567890") [] 0 5 .apiError [] none none).store,
        r.status = Status.pending := by
  refine ⟨rfl, rfl, ?_⟩
  rintro ⟨r, hr, _⟩
  exact List.not_mem_nil r hr

/-- C1 amended: for every accepted verification request (input valid, not
rate-limited), no record is created before the external call. When the
external call fails terminally the caller receives 502 and the store is
unchanged — no record exists at all, pending or otherwise. Only on external
success is exactly one record appended, already carrying the final status
(`verified` when the payload is valid, else `failed`), never `pending`. -/
theorem record_created_only_after_external_success (s : String)
    (store : List Row) (startTime endTime : Int) (rnd : List (Fin 36))
    (ip ua : Option String) (hregex : matchesPhoneRegex s = true)
    (hnorecent : ∀ r ∈ store, ¬(r.kind = .phone ∧ r.value = s ∧
      startTime - 5 * 60 * 1000 < r.created_at)) :
    phonePOST (.str s) store startTime endTime .apiError rnd ip ua
      = ⟨502, true, store⟩
    ∧ ∀ p : PhonePayload, ∃ row : Row,
        phonePOST (.str s) store startTime endTime (.ok p) rnd ip ua
          = ⟨200, true, store ++ [row]⟩
        ∧ row.status = (if p.valid then Status.verified else Status.failed)
        ∧ row.status ≠ Status.pending := by
  have hs : ¬ s = "" := by
    intro h
    rw [h] at hregex
    exact absurd hregex (by decide)
  have hfind : (List.find?
      (fun attempt => decide (startTime - 5 * 60 * 1000 < attempt.created_at))
      (getVerificationRequestsByValue store .phone s)).isSome = false := by
    rw [Bool.eq_false_iff]
    intro hcontra
    rw [List.find?_isSome] at hcontra
    obtain ⟨r, hrmem, hpred⟩ := hcontra
    obtain ⟨hr, hk, hv⟩ := mem_getVerificationRequestsByValue.mp hrmem
    exact hnorecent r hr ⟨hk, hv, by simpa using hpred⟩
  constructor
  · unfold phonePOST
    dsimp only
    rw [if_neg hs, hregex]
    simp only [Bool.not_true, Bool.false_eq_true, if_false, hfind]
  · intro p
    refine ⟨applyUpdate { api_response_time := some (endTime - startTime) }
      endTime
      (createVerificationRequest store (phoneInsertRequest s p ip ua)
        rnd startTime).1, ?_, ?_, ?_⟩
    · unfold phonePOST
      dsimp only
      rw [if_neg hs, hregex]
      simp only [Bool.not_true, Bool.false_eq_true, if_false, hfind, if_true]
      have hrw := updateVerificationRequest_append_fresh store
        (createVerificationRequest store (phoneInsertRequest s p ip ua)
          rnd startTime).1
        { api_response_time := some (endTime - startTime) } endTime rfl
        (fun r hr => Nat.ne_of_lt (id_lt_nextId store r hr))
      exact congrArg (RouteOutcome.mk 200 true) hrw
    · cases hp : p.valid <;> simp [applyUpdate, createVerificationRequest,
        phoneInsertRequest, hp]
    · cases hp : p.valid <;> simp [applyUpdate, createVerificationRequest,
        phoneInsertRequest, hp]

/-- Witness for the amended C1: a concrete accepted request with a failing
external call returns 502 and leaves the empty store empty. -/
theorem record_created_only_after_external_success_witness :
    matchesPhoneRegex "+1234567890" = true
    ∧ phonePOST (.str "+1234567890") [] 1000 1250 .apiError [] none none
        = ⟨502, true, []⟩ :=
  ⟨by decide,
    (record_created_only_after_external_success "+1234567890" [] 1000 1250 []
      none none (by decide) (by simp)).1⟩

/-- C2 counterexample: the phone client receiving a single 404 on the
first attempt does NOT stop — it retries, and with a success on the second
attempt the call makes 2 external attempts and returns success, so a 4xx
other than 429 is not propagated immediately by every client. -/
theorem phone_404_retried_counterexample :
    (validatePhone (fun k => if k = 1 then .response 404 malformedPhoneBody
        else .response 200 wellFormedPhoneBody)).calls = 2
    ∧ (validatePhone (fun k => if k = 1 then .response 404 malformedPhoneBody
        else .response 200 wellFormedPhoneBody)).result
        = .ok wellFormedPhoneBody := ⟨rfl, rfl⟩

/-- C2 amended: only the email client treats an HTTP status in [400,500)
other than 429 as terminal, and only when it arrives on the FIRST attempt:
then there is exactly 1 external call and the error propagates immediately
(the route maps it to 502). The phone client retries every non-2xx status
including 404 with a backoff wait, so a single 404 followed by a success
yields 2 calls and overall success. -/
theorem email_4xx_first_attempt_terminal (resp : Nat → FetchOutcome EmailJson)
    (respP : Nat → FetchOutcome PhoneJson) (status : Nat) (b : EmailJson)
    (bp good : PhoneJson) (hterm : isTerminalClientErrorStatus status = true)
    (h1 : resp 1 = .response status b) (hp1 : respP 1 = .response status bp)
    (hp2 : respP 2 = .response 200 good) :
    validateEmail resp = ⟨1, [], .error (.httpError status)⟩
    ∧ validatePhone respP = ⟨2, [1000], .ok good⟩ := by
  have hok : responseOk status = false := responseOk_eq_false_of_terminal hterm
  have h13 : ¬ (1 : Nat) = maxRetries := by decide
  constructor
  · show validateEmailGo resp 3 1 [] = _
    unfold validateEmailGo
    rw [h1]
    dsimp only
    rw [hok]
    simp only [Bool.false_eq_true, if_false, hterm, if_true]
  · show validatePhoneGo respP 3 1 [] = _
    unfold validatePhoneGo
    rw [hp1]
    dsimp only
    rw [hok]
    simp only [Bool.false_eq_true, if_false, if_neg h13]
    unfold validatePhoneGo
    rw [hp2]
    dsimp only
    rfl

/-- Witness for the amended C2 at a concrete 404. -/
theorem email_4xx_first_attempt_terminal_witness :
    isTerminalClientErrorStatus 404 = true
    ∧ (validateEmail (fun _ => .response 404 malformedEmailBody)
          = ⟨1, [], .error (.httpError 404)⟩
        ∧ validatePhone (fun k => if k = 1 then .response 404 malformedPhoneBody
            else .response 200 wellFormedPhoneBody)
          = ⟨2, [1000], .ok wellFormedPhoneBody⟩) :=
  ⟨by decide,
    email_4xx_first_attempt_terminal (fun _ => .response 404 malformedEmailBody)
      (fun k => if k = 1 then .response 404 malformedPhoneBody
        else .response 200 wellFormedPhoneBody)
      404 malformedEmailBody malformedPhoneBody wellFormedPhoneBody
      (by decide) rfl rfl rfl⟩

/-- C5: retryable failures are retried up to 3 attempts total with waits
of `min(1000 * 2^(attempt-1), 5000)` ms between retries: two 503 responses
followed by a success yield exactly 3 external calls with waits 1000 ms
then 2000 ms (and no wait after the final attempt) and overall success, for
both clients; no call ever makes more than 3 attempts. -/
theorem retry_backoff_and_attempt_budget :
    validatePhone (fun k => if k = 3 then .response 200 wellFormedPhoneBody
        else .response 503 malformedPhoneBody)
      = ⟨3, [1000, 2000], .ok wellFormedPhoneBody⟩
    ∧ validateEmail (fun k => if k = 3 then .response 200 wellFormedEmailBody
        else .response 503 malformedEmailBody)
      = ⟨3, [1000, 2000], .ok wellFormedEmailBody⟩
    ∧ (∀ resp : Nat → FetchOutcome PhoneJson, (validatePhone resp).calls ≤ 3)
    ∧ (∀ resp : Nat → FetchOutcome EmailJson, (validateEmail resp).calls ≤ 3)
    ∧ backoffDelay 1 = 1000 ∧ backoffDelay 2 = 2000
    ∧ ∀ attempt : Nat, backoffDelay attempt = min (1000 * 2 ^ (attempt - 1)) 5000 := by
  refine ⟨rfl, rfl, ?_, ?_, rfl, rfl, fun _ => rfl⟩
  · intro resp
    exact validatePhoneGo_calls_le resp 3 1 []
  · intro resp
    exact validateEmailGo_calls_le resp 3 1 []

/-- C6 counterexample: the phone client performs no structure check on a
2xx JSON body — a payload missing every required top-level field is
returned as a success on the first attempt, not retried and not turned
into a terminal error. -/
theorem phone_malformed_success_counterexample :
    validatePhone (fun _ => .response 200 malformedPhoneBody)
      = ⟨1, [], .ok malformedPhoneBody⟩
    ∧ malformedPhoneBody.hasRequiredTopLevelFields = false := ⟨rfl, rfl⟩

/-- C6 amended: the EMAIL client treats a JSON response missing the
required top-level fields as retryable up to the 3-attempt budget (with no
backoff wait on this path) and then fails terminally, and never returns a
malformed payload as a success; the PHONE client does not validate the
response structure and returns even a fully malformed payload as an
immediate success. -/
theorem email_malformed_retried_never_success (b : EmailJson)
    (resp : Nat → FetchOutcome EmailJson) (b' : EmailJson) (j : PhoneJson)
    (hb : b.structureOk = false) :
    validateEmail (fun _ => .response 200 b) = ⟨3, [], .error .malformedResponse⟩
    ∧ ((validateEmail resp).result = .ok b' → b'.structureOk = true)
    ∧ validatePhone (fun _ => .response 200 j) = ⟨1, [], .ok j⟩ := by
  refine ⟨?_, ?_, rfl⟩
  · show validateEmailGo (fun _ => .response 200 b) 3 1 [] = _
    unfold validateEmailGo
    dsimp only
    simp only [show responseOk 200 = true from rfl, if_true, hb,
      Bool.false_eq_true, if_false]
    rw [if_neg (show ¬ (1 : Nat) = maxRetries by decide)]
    unfold validateEmailGo
    dsimp only
    simp only [show responseOk 200 = true from rfl, if_true, hb,
      Bool.false_eq_true, if_false]
    rw [if_neg (show ¬ (2 : Nat) = maxRetries by decide)]
    unfold validateEmailGo
    dsimp only
    simp only [show responseOk 200 = true from rfl, if_true, hb,
      Bool.false_eq_true, if_false]
    rw [if_pos (show (3 : Nat) = maxRetries from rfl)]
  · exact fun h => validateEmailGo_ok_structureOk resp 3 1 [] b' h

/-- Witness for the amended C6 at concrete bodies. -/
theorem email_malformed_retried_never_success_witness :
    malformedEmailBody.structureOk = false
    ∧ validateEmail (fun _ => .response 200 malformedEmailBody)
        = ⟨3, [], .error .malformedResponse⟩ :=
  ⟨rfl,
    (email_malformed_retried_never_success malformedEmailBody
      (fun _ => .response 200 malformedEmailBody) malformedEmailBody
      malformedPhoneBody rfl).1⟩

/-- C8: the Record Store's partial update modifies only the supplied
fields among status, validation/reputation payload, response latency,
quality score and risk tier, plus `updated_at`: every other column of the
touched row is unchanged, rows with a different id are untouched, and an
id matching no row completes without error and changes nothing. -/
theorem updateVerificationRequest_frame (store : List Row) (id : Nat)
    (u : UpdateFields) (now : Int) :
    ((∀ r ∈ store, r.id ≠ id) → updateVerificationRequest store id u now = store)
    ∧ (updateVerificationRequest store id u now
          = store.map (fun r => if r.id = id then applyUpdate u now r else r)
        ∨ updateVerificationRequest store id u now = store)
    ∧ (∀ r : Row, r.id ≠ id →
        (if r.id = id then applyUpdate u now r else r) = r)
    ∧ (∀ r : Row, (applyUpdate u now r).id = r.id
        ∧ (applyUpdate u now r).kind = r.kind
        ∧ (applyUpdate u now r).value = r.value
        ∧ (applyUpdate u now r).verification_code = r.verification_code
        ∧ (applyUpdate u now r).created_at = r.created_at
        ∧ (applyUpdate u now r).ip_address = r.ip_address
        ∧ (applyUpdate u now r).user_agent = r.user_agent)
    ∧ (∀ r : Row,
        (u.status = none → (applyUpdate u now r).status = r.status)
        ∧ (u.validation_data = none →
            (applyUpdate u now r).validation_data = r.validation_data)
        ∧ (u.reputation_data = none →
            (applyUpdate u now r).reputation_data = r.reputation_data)
        ∧ (u.api_response_time = none →
            (applyUpdate u now r).api_response_time = r.api_response_time)
        ∧ (u.quality_score = none →
            (applyUpdate u now r).quality_score = r.quality_score)
        ∧ (u.risk_level = none →
            (applyUpdate u now r).risk_level = r.risk_level)) := by
  refine ⟨?_, ?_, ?_, ?_, ?_⟩
  · intro h
    unfold updateVerificationRequest
    by_cases hu : hasAnyField u = true
    · rw [hu]
      simp only [if_true]
      exact map_eq_self_of_fixes (fun r hr => if_neg (h r hr))
    · rw [Bool.eq_false_iff.mpr hu]
      simp
  · unfold updateVerificationRequest
    by_cases hu : hasAnyField u = true
    · rw [hu]; left; simp
    · rw [Bool.eq_false_iff.mpr hu]; right; simp
  · exact fun r hr => if_neg hr
  · exact fun r => ⟨rfl, rfl, rfl, rfl, rfl, rfl, rfl⟩
  · intro r
    refine ⟨?_, ?_, ?_, ?_, ?_, ?_⟩ <;> intro h <;> simp [applyUpdate, h]

/-- Witness for C8: updating an id that matches no stored row leaves a
concrete one-row store untouched. -/
theorem updateVerificationRequest_frame_witness :
    (∀ r ∈ [sampleRow], r.id ≠ 99)
    ∧ updateVerificationRequest [sampleRow] 99
        { api_response_time := some 5 } 123 = [sampleRow] :=
  ⟨by decide,
    (updateVerificationRequest_frame [sampleRow] 99
      { api_response_time := some 5 } 123).1 (by decide)⟩

/-- C9: the insert coerces the falsy numeric value 0 to NULL — a request
whose `api_response_time` or `quality_score` is 0 produces a row with that
column absent; in particular the phone route's initial insert, which always
passes `api_response_time: 0`, creates its row with no response time (it is
only set by the later update). -/
theorem falsy_zero_stored_as_null (store : List Row) (req : InsertRequest)
    (rnd : List (Fin 36)) (now : Int) :
    (req.api_response_time = some 0 →
      (createVerificationRequest store req rnd now).1.api_response_time = none)
    ∧ (req.quality_score = some 0 →
      (createVerificationRequest store req rnd now).1.quality_score = none)
    ∧ ∀ (s : String) (p : PhonePayload) (ip ua : Option String),
        (phoneInsertRequest s p ip ua).api_response_time = some 0
        ∧ (createVerificationRequest store (phoneInsertRequest s p ip ua)
            rnd now).1.api_response_time = none := by
  refine ⟨?_, ?_, ?_⟩
  · intro h
    simp [createVerificationRequest, intOrNull, h]
  · intro h
    simp [createVerificationRequest, ratOrNull, h]
  · intro s p ip ua
    exact ⟨rfl, by simp [createVerificationRequest, phoneInsertRequest, intOrNull]⟩

/-- Witness for C9 at a concrete insert passing 0 for both numeric
fields. -/
theorem falsy_zero_stored_as_null_witness :
    ({ kind := Kind.phone, value := "+1234567890", status := none,
        api_response_time := some 0, quality_score := some 0 } :
      InsertRequest).api_response_time = some 0
    ∧ (createVerificationRequest []
        { kind := Kind.phone, value := "+1234567890", status := none,
          api_response_time := some 0, quality_score := some 0 }
        [] 0).1.api_response_time = none :=
  ⟨rfl,
    (falsy_zero_stored_as_null []
      { kind := Kind.phone, value := "+1234567890", status := none,
        api_response_time := some 0, quality_score := some 0 }
      [] 0).1 rfl⟩

/-- C10: every inserted row's verification code is exactly the function of
the random digits alone — independent of every caller-supplied field
(including a supplied `verification_code`, which cannot override it) and of
the submitted value and validation result; the code has at most 6
characters, may have fewer, and uses only the uppercase base-36 alphabet
(digits and A-Z). -/
theorem verification_code_shape :
    (∀ (store : List Row) (req : InsertRequest) (rnd : List (Fin 36)) (now : Int),
      (createVerificationRequest store req rnd now).1.verification_code
        = some (generateVerificationCode rnd))
    ∧ (∀ (store : List Row) (req : InsertRequest) (rnd : List (Fin 36))
        (now : Int) (s : String),
      (createVerificationRequest store { req with verification_code := some s }
          rnd now).1.verification_code = some (generateVerificationCode rnd))
    ∧ (∀ rnd : List (Fin 36), (generateVerificationCode rnd).length ≤ 6)
    ∧ (∀ (rnd : List (Fin 36)) (c : Char), c ∈ (generateVerificationCode rnd).data →
        (isJsDigit c || ('A' ≤ c && c ≤ 'Z')) = true)
    ∧ (∃ rnd : List (Fin 36), (generateVerificationCode rnd).length < 6) := by
  refine ⟨fun _ _ _ _ => rfl, fun _ _ _ _ _ => rfl, ?_, ?_, ⟨[], by decide⟩⟩
  · intro rnd
    show ((rnd.take 6).map base36UpperChar).length ≤ 6
    rw [List.length_map, List.length_take]
    omega
  · intro rnd c hc
    have hall : ∀ d : Fin 36, (isJsDigit (base36UpperChar d)
        || ('A' ≤ base36UpperChar d && base36UpperChar d ≤ 'Z')) = true := by decide
    obtain ⟨d, _, rfl⟩ := List.mem_map.mp hc
    exact hall d

/-- Witness for C10: the code generated from the digit 10 is the single
character `A`, which is in the uppercase base-36 alphabet. -/
theorem verification_code_shape_witness :
    'A' ∈ (generateVerificationCode [(10 : Fin 36)]).data
    ∧ (isJsDigit 'A' || ('A' ≤ 'A' && 'A' ≤ 'Z')) = true :=
  ⟨by decide, verification_code_shape.2.2.2.1 [(10 : Fin 36)] 'A' (by decide)⟩

end Verify
